import Mathlib

/-! # tinc `process.c`: process management, signal handling, pid file, hook scripts

A shallow embedding of `src/process.c` (tinc 1.0, revision 1.1.2.56) and the
properties of its lifecycle controller.

* C `int` values are `Int`; signal numbers, which are never negative, are `Nat`.
* The process and its surroundings are an explicit state `World`; every C
  function is a state transformer, returning its C return value next to the
  new state where it has one.
* Results of system calls are read from an environment `Env`.
* Constants of the system headers are the fields of `Consts`.
* Calls with an effect outside the process are appended to `World.trace`.
* A handler runs with its own signal blocked (`sa_flags = 0`, empty `sa_mask`);
  a signal raised while blocked stays pending.
* The checkpoint statement `cp()` has no effect on any state modelled here and
  is left out.
-/

namespace Tincd

/-! ## Constants of the headers -/

/-- Constants and status decoders declared in headers outside `process.c`
(`<signal.h>`, `<errno.h>`, `<sys/wait.h>`, `logger.h`), taken as parameters. -/
structure Consts where
  NSIG : Nat
  SIGHUP : Nat
  SIGTERM : Nat
  SIGQUIT : Nat
  SIGSEGV : Nat
  SIGBUS : Nat
  SIGILL : Nat
  SIGPIPE : Nat
  SIGINT : Nat
  SIGUSR1 : Nat
  SIGUSR2 : Nat
  SIGCHLD : Nat
  SIGALRM : Nat
  SIGWINCH : Nat
  EINTR : Int
  ESRCH : Int
  WIFEXITED : Int → Bool
  WEXITSTATUS : Int → Int
  WIFSIGNALED : Int → Bool
  WTERMSIG : Int → Int
  DEBUG_CONNECTIONS : Int
  DEBUG_STATUS : Int
  DEBUG_SCARY_THINGS : Int

/-- The values of the constants on Linux (x86-64, glibc) with tinc's `logger.h`. -/
def linux : Consts where
  NSIG := 65
  SIGHUP := 1
  SIGTERM := 15
  SIGQUIT := 3
  SIGSEGV := 11
  SIGBUS := 7
  SIGILL := 4
  SIGPIPE := 13
  SIGINT := 2
  SIGUSR1 := 10
  SIGUSR2 := 12
  SIGCHLD := 17
  SIGALRM := 14
  SIGWINCH := 28
  EINTR := 4
  ESRCH := 3
  WIFEXITED := fun s => s % 128 == 0
  WEXITSTATUS := fun s => (s / 256) % 256
  WIFSIGNALED := fun s => decide (1 ≤ s % 128) && decide (s % 128 ≤ 126)
  WTERMSIG := fun s => s % 128
  DEBUG_CONNECTIONS := 1
  DEBUG_STATUS := 2
  DEBUG_SCARY_THINGS := 10

/-- The signals of the table `sighandlers`, in table order. -/
def Consts.tableSignals (P : Consts) : List Nat :=
  [P.SIGHUP, P.SIGTERM, P.SIGQUIT, P.SIGSEGV, P.SIGBUS, P.SIGILL, P.SIGPIPE,
   P.SIGINT, P.SIGUSR1, P.SIGUSR2, P.SIGCHLD, P.SIGALRM, P.SIGWINCH]

/-- The table signals are real signals: none is 0 and no two coincide. -/
def Consts.SignalsOk (P : Consts) : Prop :=
  P.tableSignals.Nodup ∧ 0 ∉ P.tableSignals

instance (P : Consts) : Decidable P.SignalsOk := by
  unfold Consts.SignalsOk; exact inferInstance

/-! ## Data model -/

/-- The functions a signal can be bound to: the handlers of `process.c`, the
default action `SIG_DFL`, and `NULL` (the table terminator). -/
inductive Handler
  | NULL
  | SIG_DFL
  | sigterm_handler
  | sigquit_handler
  | fatal_signal_square
  | fatal_signal_handler
  | sighup_handler
  | sigint_handler
  | sigalrm_handler
  | sigusr1_handler
  | sigusr2_handler
  | sigwinch_handler
  | unexpected_signal_handler
  | ignore_signal_handler
  deriving DecidableEq, Repr

/-- Priorities passed to `logger`. -/
inductive Prio
  | LOG_ERR
  | LOG_WARNING
  | LOG_NOTICE
  | LOG_INFO
  | LOG_DEBUG
  deriving DecidableEq, Repr

/-- Modes passed to `openlogger`. -/
inductive LogMode
  | LOGMODE_FILE
  | LOGMODE_SYSLOG
  | LOGMODE_STDERR
  deriving DecidableEq, Repr

/-- The messages of `process.c`, one constructor per format string, with the
arguments that are formatted into it. -/
inductive Msg
  | memory_exhausted (size : Int)
  | terminating
  | already_running (netname : Option String) (pid : Int)
  | no_other_running (netname : Option String)
  | no_longer_running (netname : Option String)
  | removing_stale_lock
  | couldnt_detach
  | starting (debug_level : Int)
  | could_not_execute (scriptname : String) (err : Int)
  | syscall_failed (call : String)
  | executing_script (name : String)
  | exited_nonzero (pid : Int) (name : String) (status : Int)
  | killed_by_signal (pid : Int) (name : String) (sig : Int)
  | terminated_abnormally (pid : Int) (name : String)
  | got_term
  | got_quit
  | another_fatal (a : Nat)
  | got_fatal (a : Nat)
  | trying_reexec
  | not_restarting
  | got_hup
  | reverting_debug (level : Int)
  | temporarily_debug (level : Int)
  | got_alrm
  | unexpected_signal (a : Nat)
  | ignored_signal (a : Nat)
  | sigaction_failed (sig : Nat)
  deriving DecidableEq, Repr

/-- Calls that act outside the variables of `process.c`, in the order made. -/
inductive Event
  | logger (p : Prio) (m : Msg)
  | stderr (m : Msg)
  | cp_trace
  | close_network_connections
  | dump_device_stats
  | dump_connections
  | dump_nodes
  | dump_edges
  | dump_subnets
  | closelogger
  | openlogger (mode : LogMode)
  | write_pid (pid : Int) (ok : Bool)
  | remove_pid
  | kill (pid : Int) (sig : Int)
  | daemon
  | fork
  | waitpid (pid : Int)
  | putenv (s : String)
  | chdir (dir : String)
  | fcloseall
  | execl (path : String)
  | sleep (seconds : Nat)
  | execvp
  | exit (c : Int)
  | signal (sig : Nat) (h : Handler)
  | default_action (sig : Nat)
  deriving DecidableEq, Repr

/-- Whether the process still executes this program. -/
inductive Status
  | running
  | exited (c : Int)
  | replaced
  deriving DecidableEq, Repr

/-- The function `xalloc_fail_func` points to. -/
inductive FailFunc
  | unset
  | memory_full
  deriving DecidableEq, Repr

/-- The variables of the program that `process.c` reads or writes. -/
structure Globals where
  do_detach : Int
  saved_debug_level : Int
  debug_level : Int
  sighup : Int
  sigalrm : Int
  do_purge : Int
  sighandlers : List (Nat × Handler)
  xalloc_fail_func : FailFunc
  deriving DecidableEq, Repr

/-- One answer of `waitpid`: its return value, the status it stores, and the
value of `errno` after the call. -/
structure WaitResp where
  ret : Int
  status : Int
  errno : Int
  deriving DecidableEq, Repr

/-- What the surroundings answer to the calls of `process.c`. -/
structure Env where
  netname : Option String
  confbase : String
  use_logfile : Int
  /-- whether `sigaction` accepts the signal -/
  sigaction_ok : Nat → Bool
  /-- whether the n-th call of `write_pid` can write the file -/
  write_pid_ok : Nat → Bool
  /-- return value and `errno` of `kill pid sig` -/
  kill : Int → Int → Int × Int
  /-- return value of `daemon(0, 0)` -/
  daemon_ret : Int
  /-- process id of the process that continues after a successful `daemon` -/
  daemon_pid : Int
  /-- return value of `stat` on a path -/
  stat : String → Int
  /-- return value of `fork` -/
  fork : Int
  /-- answer of the n-th call of `waitpid` -/
  waitpid : Nat → WaitResp
  /-- `errno` of a failing `execl`, `none` when it succeeds -/
  execl_errno : Option Int
  /-- whether `execvp` succeeds -/
  execvp_ok : Bool

/-- The process and the part of the system it acts on. -/
structure World where
  g : Globals
  /-- the handler bound to each signal -/
  disposition : Nat → Handler
  /-- the pid recorded in the lock file, `none` when there is no file -/
  pidfile : Option Int
  /-- the value of `getpid()` -/
  self : Int
  errno : Int
  /-- number of `write_pid` calls made -/
  nwrite : Nat
  /-- number of `waitpid` calls made -/
  nwait : Nat
  /-- the signals that are blocked (the signal mask of the process) -/
  blocked : List Nat
  /-- the signals raised while blocked and not delivered yet -/
  pending : List Nat
  status : Status
  trace : List Event

/-- Append an event to the trace. -/
def World.emit (w : World) (e : Event) : World :=
  { w with trace := w.trace ++ [e] }

/-- The static initialiser of `sighandlers`, terminator included. -/
def sighandlers_init (P : Consts) : List (Nat × Handler) :=
  [(P.SIGHUP, .sighup_handler), (P.SIGTERM, .sigterm_handler),
   (P.SIGQUIT, .sigquit_handler), (P.SIGSEGV, .fatal_signal_handler),
   (P.SIGBUS, .fatal_signal_handler), (P.SIGILL, .fatal_signal_handler),
   (P.SIGPIPE, .ignore_signal_handler), (P.SIGINT, .sigint_handler),
   (P.SIGUSR1, .sigusr1_handler), (P.SIGUSR2, .sigusr2_handler),
   (P.SIGCHLD, .ignore_signal_handler), (P.SIGALRM, .sigalrm_handler),
   (P.SIGWINCH, .sigwinch_handler), (0, .NULL)]

/-- The variables as their initialisers leave them (`do_detach = 1`,
`saved_debug_level = -1`), given the variables defined in other files. -/
def Globals.init (P : Consts) (debug_level sighup sigalrm do_purge : Int) : Globals where
  do_detach := 1
  saved_debug_level := -1
  debug_level := debug_level
  sighup := sighup
  sigalrm := sigalrm
  do_purge := do_purge
  sighandlers := sighandlers_init P
  xalloc_fail_func := .unset

/-! ## Statements -/

/-- A statement: a transformer of the state. -/
abbrev Step := World → World

/-- Run statements in order; a process that has exited or was replaced
executes nothing more. -/
def run (ss : List Step) (w : World) : World :=
  ss.foldl (fun w s => if w.status = .running then s w else w) w

def logger (p : Prio) (m : Msg) : Step := fun w => w.emit (.logger p m)

def fprintf_stderr (m : Msg) : Step := fun w => w.emit (.stderr m)

def cp_trace : Step := fun w => w.emit .cp_trace

def exit (c : Int) : Step := fun w => { w.emit (.exit c) with status := .exited c }

def closelogger : Step := fun w => w.emit .closelogger

def openlogger (mode : LogMode) : Step := fun w => w.emit (.openlogger mode)

def close_network_connections : Step := fun w => w.emit .close_network_connections

def sleep (n : Nat) : Step := fun w => w.emit (.sleep n)

/-- The test of `ifdebug(l)`: `debug_level >= DEBUG_l`. -/
def ifdebug (level : Int) (s : Step) : Step :=
  fun w => if w.g.debug_level ≥ level then s w else w

/-- `sigaction(sig, &act, NULL)` with `act.sa_handler = h`: binds `h` to `sig`
and returns 0, or returns -1 and changes nothing. -/
def sigaction (E : Env) (sig : Nat) (h : Handler) (w : World) : Int × World :=
  if E.sigaction_ok sig then
    (0, { w with disposition := fun i => if i = sig then h else w.disposition i })
  else
    (-1, w)

/-- `execvp(g_argv[0], g_argv)`: the program is started afresh, or the call
returns. -/
def execvp (E : Env) : Step := fun w =>
  if E.execvp_ok then { w.emit .execvp with status := .replaced } else w.emit .execvp

/-! ## The lock file (`pidfile.h`) -/

/-- Modelled from the spec: `read_pid` of `pidfile.c`, which is not in the
source tree. The lock file holds the decimal pid of its holder; the recorded
pid is returned when there is one, and 0 ("no lock") otherwise. -/
def read_pid (w : World) : Int := w.pidfile.getD 0

/-- Modelled from the spec: `check_pid` of `pidfile.c`, which is not in the
source tree (`checkExisting`: reads the file; returns the recorded pid, else
none, here 0). It does not change the file. -/
def check_pid (w : World) : Int := read_pid w

/-- Modelled from the spec: `write_pid` of `pidfile.c`, which is not in the
source tree. Writes the pid of the caller in one piece and returns non-zero;
when the file cannot be written it returns 0 and the file is as before. -/
def write_pid (E : Env) (w : World) : Int × World :=
  let ok := E.write_pid_ok w.nwrite
  let w1 := { w.emit (.write_pid w.self ok) with nwrite := w.nwrite + 1 }
  if ok then (1, { w1 with pidfile := some w.self }) else (0, w1)

/-- Modelled from the spec: `remove_pid` of `pidfile.c`, which is not in the
source tree (`release`: removes the file, no error if absent). -/
def remove_pid : Step := fun w => { w.emit .remove_pid with pidfile := none }

/-! ## `process.c` -/

/-- `memory_full`. -/
def memory_full (size : Int) : List Step :=
  [logger .LOG_ERR (.memory_exhausted size), cp_trace, exit 1]

/-- `cleanup_and_exit`: close network connections, and terminate neatly. -/
def cleanup_and_exit (P : Consts) (c : Int) : List Step :=
  [close_network_connections,
   ifdebug P.DEBUG_CONNECTIONS (fun w => w.emit .dump_device_stats),
   logger .LOG_NOTICE .terminating,
   closelogger,
   exit c]

/-! ### Signal handlers

Each handler is the list of its statements, so that another signal can arrive
between two of them. A test at the head of a handler reads the state in which
the handler is entered. -/

def sigterm_handler (P : Consts) (_a : Nat) : List Step :=
  [logger .LOG_NOTICE .got_term] ++ cleanup_and_exit P 0

def sigquit_handler (P : Consts) (_a : Nat) : List Step :=
  [logger .LOG_NOTICE .got_quit] ++ cleanup_and_exit P 0

def fatal_signal_square (a : Nat) : List Step :=
  [logger .LOG_ERR (.another_fatal a), cp_trace, exit 1]

/-- `fatal_signal_handler`. The test of `do_detach` follows two statements that
do not write it, and no handler writes it. -/
def fatal_signal_handler (P : Consts) (E : Env) (a : Nat) (w : World) : List Step :=
  [logger .LOG_ERR (.got_fatal a), cp_trace] ++
  (if w.g.do_detach ≠ 0 then
    [logger .LOG_NOTICE .trying_reexec,
     fun w => (sigaction E P.SIGSEGV .fatal_signal_square w).2,
     close_network_connections,
     sleep 5,
     remove_pid,
     execvp E]
  else
    [logger .LOG_NOTICE .not_restarting, exit 1])

def sighup_handler (_a : Nat) : List Step :=
  [logger .LOG_NOTICE .got_hup, fun w => { w with g.sighup := 1 }]

def sigint_handler (_a : Nat) (w : World) : List Step :=
  if w.g.saved_debug_level ≠ -1 then
    [logger .LOG_NOTICE (.reverting_debug w.g.saved_debug_level),
     fun w => { w with g.debug_level := w.g.saved_debug_level },
     fun w => { w with g.saved_debug_level := -1 }]
  else
    [logger .LOG_NOTICE (.temporarily_debug w.g.debug_level),
     fun w => { w with g.saved_debug_level := w.g.debug_level },
     fun w => { w with g.debug_level := 5 }]

def sigalrm_handler (_a : Nat) : List Step :=
  [logger .LOG_NOTICE .got_alrm, fun w => { w with g.sigalrm := 1 }]

def sigusr1_handler (_a : Nat) : List Step :=
  [fun w => w.emit .dump_connections]

def sigusr2_handler (_a : Nat) : List Step :=
  [fun w => w.emit .dump_device_stats, fun w => w.emit .dump_nodes,
   fun w => w.emit .dump_edges, fun w => w.emit .dump_subnets]

def sigwinch_handler (_a : Nat) : List Step :=
  [fun w => { w with g.do_purge := 1 }]

def unexpected_signal_handler (a : Nat) : List Step :=
  [logger .LOG_WARNING (.unexpected_signal a), cp_trace]

def ignore_signal_handler (P : Consts) (a : Nat) : List Step :=
  [ifdebug P.DEBUG_SCARY_THINGS (logger .LOG_DEBUG (.ignored_signal a))]

/-- The statements executed when handler `h` is entered for signal `a` in
state `w`. What the default action does is up to the system and only noted. -/
def handler_body (P : Consts) (E : Env) (h : Handler) (a : Nat) (w : World) : List Step :=
  match h with
  | .NULL => [fun w => w.emit (.default_action a)]
  | .SIG_DFL => [fun w => w.emit (.default_action a)]
  | .sigterm_handler => sigterm_handler P a
  | .sigquit_handler => sigquit_handler P a
  | .fatal_signal_square => fatal_signal_square a
  | .fatal_signal_handler => fatal_signal_handler P E a w
  | .sighup_handler => sighup_handler a
  | .sigint_handler => sigint_handler a w
  | .sigalrm_handler => sigalrm_handler a
  | .sigusr1_handler => sigusr1_handler a
  | .sigusr2_handler => sigusr2_handler a
  | .sigwinch_handler => sigwinch_handler a
  | .unexpected_signal_handler => unexpected_signal_handler a
  | .ignore_signal_handler => ignore_signal_handler P a

/-- Call handler `h` with argument `a` and let it run to its end. -/
def call_handler (P : Consts) (E : Env) (h : Handler) (a : Nat) (w : World) : World :=
  run (handler_body P E h a w) w

/-- The first loop of `setup_signals`: a default handler for every signal
below `n`, errors ignored. -/
def setup_default (E : Env) (n : Nat) (w : World) : World :=
  (List.range n).foldl
    (fun w i =>
      (sigaction E i
        (if w.g.do_detach = 0 then Handler.SIG_DFL else Handler.unexpected_signal_handler)
        w).2)
    w

/-- The assignment `tab[i].handler = h`. -/
def set_handler : Nat → Handler → List (Nat × Handler) → List (Nat × Handler)
  | _, _, [] => []
  | 0, h, (sig, _) :: rest => (sig, h) :: rest
  | i + 1, h, e :: rest => e :: set_handler i h rest

/-- The second loop of `setup_signals`, from the entry it has reached: it ends
at the first entry whose signal is 0; a failing `sigaction` is reported. -/
def setup_table (E : Env) : List (Nat × Handler) → World → World
  | [], w => w
  | (sig, h) :: rest, w =>
    if sig = 0 then w
    else
      let r := sigaction E sig h w
      let w1 := if r.1 < 0 then fprintf_stderr (.sigaction_failed sig) r.2 else r.2
      setup_table E rest w1

/-- `setup_signals`. -/
def setup_signals (P : Consts) (E : Env) (w : World) : World :=
  let w1 := setup_default E P.NSIG w
  let w2 :=
    if w1.g.do_detach = 0 then
      { w1 with g.sighandlers := set_handler 3 .SIG_DFL w1.g.sighandlers }
    else w1
  setup_table E w2.g.sighandlers w2

/-! ### The pid file -/

/-- `write_pidfile`: check for an existing tinc for this net, and write pid to
pidfile. -/
def write_pidfile (E : Env) (w : World) : Int × World :=
  let pid := check_pid w
  if pid ≠ 0 then
    (1, fprintf_stderr (.already_running E.netname pid) w)
  else
    let r := write_pid E w
    if r.1 = 0 then (1, r.2) else (0, r.2)

/-- `kill(pid, sig)`: the return value; `errno` is changed on error only. -/
def kill (E : Env) (pid sig : Int) (w : World) : Int × World :=
  let r := E.kill pid sig
  (r.1, { w.emit (.kill pid sig) with errno := if r.1 ≠ 0 then r.2 else w.errno })

/-- `kill_other`: kill older tincd for this net. -/
def kill_other (P : Consts) (E : Env) (signal : Int) (w : World) : Int × World :=
  let pid := read_pid w
  if pid = 0 then
    (1, fprintf_stderr (.no_other_running E.netname) w)
  else
    let w1 := { w with errno := 0 }
    let r := kill E pid signal w1
    if r.1 ≠ 0 ∧ r.2.errno = P.ESRCH then
      (0, remove_pid
            (fprintf_stderr .removing_stale_lock
              (fprintf_stderr (.no_longer_running E.netname) r.2)))
    else
      (0, r.2)

/-- `daemon(0, 0)`: on success the calling process has ended and its child,
with a new pid, goes on. -/
def daemon (E : Env) (w : World) : Int × World :=
  let w1 := w.emit .daemon
  if E.daemon_ret < 0 then (E.daemon_ret, w1)
  else (E.daemon_ret, { w1 with self := E.daemon_pid })

/-- The mode in `openlogger(identname, use_logfile ? ... : ...)`. -/
def logmode (E : Env) (w : World) : LogMode :=
  if E.use_logfile ≠ 0 then .LOGMODE_FILE
  else if w.g.do_detach ≠ 0 then .LOGMODE_SYSLOG else .LOGMODE_STDERR

/-- The end of `detach`, from `openlogger` on. -/
def detach_finish (E : Env) (w : World) : Int × World :=
  let w1 := openlogger (logmode E w) w
  let w2 := logger .LOG_NOTICE (.starting w1.g.debug_level) w1
  (0, { w2 with g.xalloc_fail_func := .memory_full })

/-- `detach`: detach from current terminal, write pidfile, kill parent. -/
def detach (P : Consts) (E : Env) (w : World) : Int × World :=
  let w0 := setup_signals P E w
  let r := write_pidfile E w0
  if r.1 ≠ 0 then (-1, r.2)
  else
    let w1 := closelogger r.2
    if w1.g.do_detach ≠ 0 then
      let d := daemon E w1
      if d.1 < 0 then (-1, fprintf_stderr .couldnt_detach d.2)
      else
        let u := write_pid E d.2
        if u.1 = 0 then (-1, u.2)
        else detach_finish E u.2
    else detach_finish E w1

/-! ### Hook scripts -/

/-- `_execute_script`: execute the program, with sane environment. It does not
return: the program is replaced, or the process exits with the `errno` of
`execl`. -/
def _execute_script (E : Env) (scriptname : String) (envp : List String) (w : World) : World :=
  let w1 := envp.foldl (fun w s => w.emit (.putenv s)) w
  let w2 := ((w1.emit (.chdir "/")).emit .closelogger).emit .fcloseall
  let w3 := w2.emit (.execl scriptname)
  match E.execl_errno with
  | none => { w3 with status := .replaced }
  | some e =>
    exit e (logger .LOG_ERR (.could_not_execute scriptname e)
      (openlogger (logmode E w3) { w3 with errno := e }))

/-- `waitpid(pid, &status, 0)`: return value and stored status. -/
def waitpid (E : Env) (pid : Int) (w : World) : Int × Int × World :=
  let a := E.waitpid w.nwait
  (a.ret, a.status, { w.emit (.waitpid pid) with nwait := w.nwait + 1, errno := a.errno })

/-- `execute_script`: fork and execute the program pointed to by name. The
result is `none` in the child, where the function does not return. -/
def execute_script (P : Consts) (E : Env) (name : String) (envp : List String)
    (w : World) : Option Int × World :=
  let scriptname := E.confbase ++ "/" ++ name
  if E.stat scriptname ≠ 0 then (some 0, w)
  else
    let pid := E.fork
    let w1 := w.emit .fork
    if pid < 0 then
      (some (-1), logger .LOG_ERR (.syscall_failed "fork") w1)
    else if pid ≠ 0 then
      let w2 := ifdebug P.DEBUG_STATUS (logger .LOG_INFO (.executing_script name)) w1
      let r := waitpid E pid w2
      let status := r.2.1
      let w3 := r.2.2
      if r.1 = pid then
        if P.WIFEXITED status then
          if P.WEXITSTATUS status ≠ 0 then
            (some (-1),
              logger .LOG_ERR (.exited_nonzero pid name (P.WEXITSTATUS status)) w3)
          else
            (some 0, w3)
        else if P.WIFSIGNALED status then
          (some (-1), logger .LOG_ERR (.killed_by_signal pid name (P.WTERMSIG status)) w3)
        else
          (some (-1), logger .LOG_ERR (.terminated_abnormally pid name) w3)
      else if w3.errno ≠ P.EINTR then
        (some (-1), logger .LOG_ERR (.syscall_failed "waitpid") w3)
      else
        (some 0, w3)
    else
      (none, _execute_script E scriptname envp w1)

/-! ### The main loop -/

/-- Modelled from the spec: the test of the hangup flag in the main loop
(`net.c`, not in the source tree), which drains `pending_hangup` once per
iteration and clears it after acting. The result tells whether a reload is
performed. -/
def drain_sighup (w : World) : Bool × World :=
  if w.g.sighup ≠ 0 then (true, { w with g.sighup := 0 }) else (false, w)

/-! ### Closed forms used in the proofs -/

/-- The binding that the second loop of `setup_signals` leaves, when every
`sigaction` succeeds. -/
def bind_table : List (Nat × Handler) → (Nat → Handler) → Nat → Handler
  | [], d => d
  | (sig, h) :: rest, d =>
    if sig = 0 then d else bind_table rest (fun i => if i = sig then h else d i)

/-- The entries of `sighandlers` before the terminator, as the second loop of
`setup_signals` reads them. -/
def roles (P : Consts) (do_detach : Int) : List (Nat × Handler) :=
  [(P.SIGHUP, .sighup_handler), (P.SIGTERM, .sigterm_handler),
   (P.SIGQUIT, .sigquit_handler),
   (P.SIGSEGV, if do_detach = 0 then .SIG_DFL else .fatal_signal_handler),
   (P.SIGBUS, .fatal_signal_handler), (P.SIGILL, .fatal_signal_handler),
   (P.SIGPIPE, .ignore_signal_handler), (P.SIGINT, .sigint_handler),
   (P.SIGUSR1, .sigusr1_handler), (P.SIGUSR2, .sigusr2_handler),
   (P.SIGCHLD, .ignore_signal_handler), (P.SIGALRM, .sigalrm_handler),
   (P.SIGWINCH, .sigwinch_handler)]

/-! ## Sample states for the instances -/

/-- An environment in which every call succeeds. -/
def env0 : Env where
  netname := none
  confbase := "/etc/tinc"
  use_logfile := 0
  sigaction_ok := fun _ => true
  write_pid_ok := fun _ => true
  kill := fun _ _ => (0, 0)
  daemon_ret := 0
  daemon_pid := 4243
  stat := fun _ => 0
  fork := 500
  waitpid := fun _ => ⟨500, 0, 0⟩
  execl_errno := none
  execvp_ok := true

/-- The state of a process with pid 4242 at the start of the program, at
debug level `lvl`, with no lock file. -/
def world0 (P : Consts) (lvl : Int) : World where
  g := Globals.init P lvl 0 0 0
  disposition := fun _ => .SIG_DFL
  pidfile := none
  self := 4242
  errno := 0
  nwrite := 0
  nwait := 0
  blocked := []
  pending := []
  status := .running
  trace := []

/-- The same state in foreground mode (`do_detach = 0`, option `-D`). -/
def world_fg (P : Consts) (lvl : Int) : World :=
  { world0 P lvl with g.do_detach := 0 }

/-- Answers of `waitpid` for a child `pid`: the first `k` calls are interrupted
(-1 with `errno = EINTR`), every later call returns `pid` and stores the
termination status `s`. -/
def waitpid_interrupted (P : Consts) (k : Nat) (pid s : Int) : Nat → WaitResp :=
  fun n => if n < k then ⟨-1, 0, P.EINTR⟩ else ⟨pid, s, 0⟩

/-- The state of the parent in `execute_script` when it calls `waitpid`. -/
def before_wait (P : Consts) (name : String) (w : World) : World :=
  ifdebug P.DEBUG_STATUS (logger .LOG_INFO (.executing_script name)) (w.emit .fork)

/-- The environment `env0` with a child that ends with wait status `s`. -/
def env_status (s : Int) : Env :=
  { env0 with waitpid := fun _ => ⟨500, s, 0⟩ }

/-- The environment `env0` with `k` interrupted waits before the child, which
ends with wait status `s`, is reaped. -/
def env_interrupted (k : Nat) (s : Int) : Env :=
  { env0 with waitpid := waitpid_interrupted linux k 500 s }

/-- The state `v` differs from `w` at most in the handler bindings, the handler
table and the trace. -/
def SignalFrame (w v : World) : Prop :=
  ∃ tab D tr, v = { w with g.sighandlers := tab, disposition := D, trace := tr }

theorem sigaction_of_ok (E : Env) (hok : ∀ i, E.sigaction_ok i = true) (sig : Nat)
    (h : Handler) (w : World) :
    sigaction E sig h w =
      (0, { w with disposition := fun i => if i = sig then h else w.disposition i }) := by
  simp [sigaction, hok]

theorem setup_default_of_ok (E : Env) (hok : ∀ i, E.sigaction_ok i = true) (n : Nat)
    (w : World) :
    setup_default E n w =
      { w with disposition := fun i =>
          if i < n then
            (if w.g.do_detach = 0 then Handler.SIG_DFL else Handler.unexpected_signal_handler)
          else w.disposition i } := by
  induction n with
  | zero => simp [setup_default]
  | succ k ih =>
    unfold setup_default at ih ⊢
    rw [List.range_succ, List.foldl_append, ih]
    simp only [List.foldl_cons, List.foldl_nil, sigaction_of_ok E hok]
    congr 1
    funext i
    by_cases h1 : i = k
    · subst h1; simp
    · have : i < k + 1 ↔ i < k := by omega
      simp [h1, this]

theorem setup_table_of_ok (E : Env) (hok : ∀ i, E.sigaction_ok i = true)
    (tab : List (Nat × Handler)) (w : World) :
    setup_table E tab w = { w with disposition := bind_table tab w.disposition } := by
  induction tab generalizing w with
  | nil => simp [setup_table, bind_table]
  | cons e rest ih =>
    obtain ⟨sig, h⟩ := e
    by_cases hs : sig = 0
    · simp [setup_table, bind_table, hs]
    · simp [setup_table, bind_table, hs, sigaction_of_ok E hok, ih]

theorem setup_signals_of_ok (P : Consts) (E : Env) (hok : ∀ i, E.sigaction_ok i = true)
    (w : World) :
    setup_signals P E w =
      { w with
        g.sighandlers :=
          if w.g.do_detach = 0 then set_handler 3 .SIG_DFL w.g.sighandlers
          else w.g.sighandlers
        disposition :=
          bind_table
            (if w.g.do_detach = 0 then set_handler 3 .SIG_DFL w.g.sighandlers
             else w.g.sighandlers)
            (fun i =>
              if i < P.NSIG then
                (if w.g.do_detach = 0 then Handler.SIG_DFL
                 else Handler.unexpected_signal_handler)
              else w.disposition i) } := by
  unfold setup_signals
  simp only [setup_default_of_ok E hok, setup_table_of_ok E hok]
  by_cases hd : w.g.do_detach = 0 <;> simp [hd]



theorem bind_table_append_zero (tab rest : List (Nat × Handler)) (h : Handler)
    (hz : ∀ e ∈ tab, e.1 ≠ 0) (d : Nat → Handler) :
    bind_table (tab ++ (0, h) :: rest) d = bind_table tab d := by
  induction tab generalizing d with
  | nil => simp [bind_table]
  | cons e tl ih =>
    obtain ⟨s, k⟩ := e
    have hs : s ≠ 0 := hz (s, k) (by simp)
    simp only [List.cons_append, bind_table, hs, if_false]
    exact ih (fun e he => hz e (List.mem_cons_of_mem _ he)) _

theorem bind_table_of_not_mem (tab : List (Nat × Handler)) (i : Nat)
    (hi : ∀ e ∈ tab, e.1 ≠ i) (d : Nat → Handler) :
    bind_table tab d i = d i := by
  induction tab generalizing d with
  | nil => simp [bind_table]
  | cons e tl ih =>
    obtain ⟨s, k⟩ := e
    have hs : i ≠ s := fun h => hi (s, k) (by simp) h.symm
    simp only [bind_table]
    split_ifs
    · rfl
    · rw [ih (fun e he => hi e (List.mem_cons_of_mem _ he))]
      simp [hs]

theorem bind_table_of_mem (tab : List (Nat × Handler)) (hz : ∀ e ∈ tab, e.1 ≠ 0)
    (hnd : (tab.map Prod.fst).Nodup) (e : Nat × Handler) (he : e ∈ tab)
    (d : Nat → Handler) :
    bind_table tab d e.1 = e.2 := by
  induction tab generalizing d with
  | nil => simp at he
  | cons x tl ih =>
    obtain ⟨s, k⟩ := x
    have hs : s ≠ 0 := hz (s, k) (by simp)
    simp only [List.map_cons, List.nodup_cons, List.mem_map, not_exists, not_and] at hnd
    simp only [bind_table, hs, if_false]
    rcases List.mem_cons.mp he with h1 | h1
    · subst h1
      rw [bind_table_of_not_mem tl s (fun y hy => hnd.1 y hy)]
      simp
    · exact ih (fun y hy => hz y (List.mem_cons_of_mem _ hy)) hnd.2 h1 _

theorem roles_fst (P : Consts) (dd : Int) : (roles P dd).map Prod.fst = P.tableSignals := by
  simp [roles, Consts.tableSignals]

theorem table_eq_roles (P : Consts) (dd : Int) :
    (if dd = 0 then set_handler 3 .SIG_DFL (sighandlers_init P) else sighandlers_init P) =
      roles P dd ++ [(0, .NULL)] := by
  by_cases h : dd = 0 <;> simp [h, sighandlers_init, set_handler, roles]

theorem roles_ne_zero (P : Consts) (hP : P.SignalsOk) (dd : Int) :
    ∀ e ∈ roles P dd, e.1 ≠ 0 := by
  intro e he h0
  apply hP.2
  rw [← roles_fst P dd, ← h0]
  exact List.mem_map_of_mem _ he

/-- The binding `setup_signals` leaves when every `sigaction` succeeds. -/
theorem setup_signals_disposition_eq (P : Consts) (E : Env) (w : World)
    (hP : P.SignalsOk) (hok : ∀ i, E.sigaction_ok i = true)
    (htab : w.g.sighandlers = sighandlers_init P) :
    (setup_signals P E w).disposition =
      bind_table (roles P w.g.do_detach)
        (fun i =>
          if i < P.NSIG then
            (if w.g.do_detach = 0 then Handler.SIG_DFL
             else Handler.unexpected_signal_handler)
          else w.disposition i) := by
  rw [setup_signals_of_ok P E hok, htab]
  simp only [table_eq_roles]
  exact bind_table_append_zero _ _ _ (roles_ne_zero P hP _) _

/-! ## The handler table -/

/-- C9: when every `sigaction` call succeeds and the table signals are
distinct and non-zero, `setup_signals` leaves every signal below `NSIG` that is
not in the table bound to the baseline (`unexpected_signal_handler` when
`do_detach != 0`, `SIG_DFL` when `do_detach == 0`), and every table signal bound
to the handler of its table entry, with one exception: when `do_detach == 0`,
`SIGSEGV` is bound to `SIG_DFL`, while `SIGBUS` and `SIGILL` keep
`fatal_signal_handler`. -/
theorem setup_signals_disposition (P : Consts) (E : Env) (w : World)
    (hP : P.SignalsOk) (hok : ∀ i, E.sigaction_ok i = true)
    (htab : w.g.sighandlers = sighandlers_init P) :
    (∀ i, i < P.NSIG → i ∉ P.tableSignals →
      (setup_signals P E w).disposition i =
        if w.g.do_detach = 0 then Handler.SIG_DFL
        else Handler.unexpected_signal_handler) ∧
    (∀ e ∈ sighandlers_init P, e.1 ≠ 0 → (w.g.do_detach = 0 → e.1 ≠ P.SIGSEGV) →
      (setup_signals P E w).disposition e.1 = e.2) ∧
    (w.g.do_detach = 0 →
      (setup_signals P E w).disposition P.SIGSEGV = Handler.SIG_DFL ∧
      (setup_signals P E w).disposition P.SIGBUS = Handler.fatal_signal_handler ∧
      (setup_signals P E w).disposition P.SIGILL = Handler.fatal_signal_handler) := by
  rw [setup_signals_disposition_eq P E w hP hok htab]
  have hz := roles_ne_zero P hP w.g.do_detach
  have hnd : ((roles P w.g.do_detach).map Prod.fst).Nodup := by
    rw [roles_fst]; exact hP.1
  refine ⟨?_, ?_, ?_⟩
  · intro i hi hni
    rw [bind_table_of_not_mem]
    · simp [hi]
    · intro e he h
      apply hni
      rw [← roles_fst P w.g.do_detach, ← h]
      exact List.mem_map_of_mem _ he
  · intro e he h0 hsegv
    apply bind_table_of_mem _ hz hnd
    by_cases hd : w.g.do_detach = 0
    · have hs := hsegv hd
      simp only [sighandlers_init, List.mem_cons, List.mem_singleton, List.not_mem_nil,
        or_false] at he
      simp only [roles, hd, if_true, List.mem_cons, List.mem_singleton, List.not_mem_nil,
        or_false]
      rcases he with h | h | h | h | h | h | h | h | h | h | h | h | h | h <;>
        subst h <;> simp at h0 hs ⊢
    · simp only [sighandlers_init, List.mem_cons, List.mem_singleton, List.not_mem_nil,
        or_false] at he
      simp only [roles, hd, if_false, List.mem_cons, List.mem_singleton, List.not_mem_nil,
        or_false]
      rcases he with h | h | h | h | h | h | h | h | h | h | h | h | h | h <;>
        subst h <;> simp at h0 ⊢
  · intro hd
    refine ⟨?_, ?_, ?_⟩
    · exact bind_table_of_mem _ hz hnd (P.SIGSEGV, .SIG_DFL) (by simp [roles, hd]) _
    · exact bind_table_of_mem _ hz hnd (P.SIGBUS, .fatal_signal_handler) (by simp [roles]) _
    · exact bind_table_of_mem _ hz hnd (P.SIGILL, .fatal_signal_handler) (by simp [roles]) _

/-- Instance of C9 on Linux, in daemon mode and in foreground mode. -/
theorem setup_signals_disposition_witness :
    linux.SignalsOk ∧ (∀ i, env0.sigaction_ok i = true) ∧
    (world0 linux 0).g.sighandlers = sighandlers_init linux ∧
    (world_fg linux 0).g.do_detach = 0 ∧
    (setup_signals linux env0 (world0 linux 0)).disposition 5
      = Handler.unexpected_signal_handler ∧
    (setup_signals linux env0 (world0 linux 0)).disposition linux.SIGSEGV
      = Handler.fatal_signal_handler ∧
    (setup_signals linux env0 (world_fg linux 0)).disposition 5 = Handler.SIG_DFL ∧
    (setup_signals linux env0 (world_fg linux 0)).disposition linux.SIGSEGV
      = Handler.SIG_DFL ∧
    (setup_signals linux env0 (world_fg linux 0)).disposition linux.SIGBUS
      = Handler.fatal_signal_handler ∧
    (setup_signals linux env0 (world_fg linux 0)).disposition linux.SIGILL
      = Handler.fatal_signal_handler :=
  ⟨by decide, fun _ => rfl, rfl, rfl,
    (setup_signals_disposition linux env0 (world0 linux 0) (by decide) (fun _ => rfl) rfl).1
      5 (by decide) (by decide),
    (setup_signals_disposition linux env0 (world0 linux 0) (by decide) (fun _ => rfl) rfl).2.1
      (linux.SIGSEGV, .fatal_signal_handler) (by decide) (by decide) (by decide),
    (setup_signals_disposition linux env0 (world_fg linux 0) (by decide) (fun _ => rfl) rfl).1
      5 (by decide) (by decide),
    (setup_signals_disposition linux env0 (world_fg linux 0) (by decide) (fun _ => rfl) rfl).2.2
      rfl⟩

/-! ## Deferred flags and the debug toggle -/

/-- C5 (as stated, refuted): at debug level -1, the value that also marks "no
level saved", two calls of `sigint_handler` leave `debug_level = 5` and
`saved_debug_level = 5` instead of restoring level -1 and the unset mark. -/
theorem sigint_handler_twice_counterexample :
    (world0 linux (-1)).g.saved_debug_level = -1 ∧
    (world0 linux (-1)).g.debug_level = -1 ∧
    (call_handler linux env0 .sigint_handler linux.SIGINT
      (call_handler linux env0 .sigint_handler linux.SIGINT (world0 linux (-1)))).g.debug_level
      = 5 ∧
    (call_handler linux env0 .sigint_handler linux.SIGINT
      (call_handler linux env0 .sigint_handler linux.SIGINT
        (world0 linux (-1)))).g.saved_debug_level = 5 ∧
    (call_handler linux env0 .sigint_handler linux.SIGINT
      (call_handler linux env0 .sigint_handler linux.SIGINT (world0 linux (-1)))).g
      ≠ (world0 linux (-1)).g := by
  decide

/-- C5 (amended): for every debug level other than -1, starting with no level
saved (`saved_debug_level = -1`), the first call of `sigint_handler` sets
`debug_level` to 5 and saves the old level, and the second call restores all the
variables: the level is the old one and no level is saved. -/
theorem sigint_handler_twice (P : Consts) (E : Env) (a : Nat) (w : World)
    (hrun : w.status = .running) (hs : w.g.saved_debug_level = -1)
    (hL : w.g.debug_level ≠ -1) :
    (call_handler P E .sigint_handler a w).g.debug_level = 5 ∧
    (call_handler P E .sigint_handler a w).g.saved_debug_level = w.g.debug_level ∧
    (call_handler P E .sigint_handler a (call_handler P E .sigint_handler a w)).g = w.g := by
  obtain ⟨g, d, pf, self, errno, nw, nwt, bl, pe, st, tr⟩ := w
  obtain ⟨dd, sv, lvl, hup, alrm, purge, tab, xf⟩ := g
  simp only at hrun hs hL
  subst hrun hs
  simp [call_handler, handler_body, sigint_handler, run, logger, World.emit, hL]

/-- Instance of C5 (amended) at debug level 3. -/
theorem sigint_handler_twice_witness :
    (world0 linux 3).status = .running ∧ (world0 linux 3).g.saved_debug_level = -1 ∧
    (world0 linux 3).g.debug_level ≠ -1 ∧
    (call_handler linux env0 .sigint_handler 2 (world0 linux 3)).g.debug_level = 5 ∧
    (call_handler linux env0 .sigint_handler 2 (world0 linux 3)).g.saved_debug_level = 3 ∧
    (call_handler linux env0 .sigint_handler 2
      (call_handler linux env0 .sigint_handler 2 (world0 linux 3))).g = (world0 linux 3).g :=
  ⟨rfl, rfl, by decide,
    sigint_handler_twice linux env0 2 (world0 linux 3) rfl rfl (by decide)⟩

/-- C10: with the process running, two calls of `sighup_handler` in a row leave
the same state as one call, the log apart: `sighup` is 1 and every other
variable (`debug_level`, `saved_debug_level`, `sigalrm`, `do_purge`, ...) is as
before the first call; a main loop that then tests and clears the flag performs
one reload, and finds nothing pending at its next test. -/
theorem sighup_handler_twice (P : Consts) (E : Env) (a : Nat) (w : World)
    (hrun : w.status = .running) :
    (call_handler P E .sighup_handler a w).g = { w.g with sighup := 1 } ∧
    call_handler P E .sighup_handler a (call_handler P E .sighup_handler a w) =
      (call_handler P E .sighup_handler a w).emit (.logger .LOG_NOTICE .got_hup) ∧
    (call_handler P E .sighup_handler a (call_handler P E .sighup_handler a w)).g =
      (call_handler P E .sighup_handler a w).g ∧
    (drain_sighup
      (call_handler P E .sighup_handler a (call_handler P E .sighup_handler a w))).1 = true ∧
    (drain_sighup (drain_sighup
      (call_handler P E .sighup_handler a (call_handler P E .sighup_handler a w))).2).1
      = false := by
  obtain ⟨g, d, pf, self, errno, nw, nwt, bl, pe, st, tr⟩ := w
  simp only at hrun
  subst hrun
  simp [call_handler, handler_body, sighup_handler, run, logger, World.emit, drain_sighup]

/-- Instance of C10 at the start state. -/
theorem sighup_handler_twice_witness :
    (world0 linux 0).status = .running ∧
    (call_handler linux env0 .sighup_handler 1
      (call_handler linux env0 .sighup_handler 1 (world0 linux 0))).g =
      { (world0 linux 0).g with sighup := 1 } :=
  ⟨rfl, by
    have h := sighup_handler_twice linux env0 1 (world0 linux 0) rfl
    rw [h.2.2.1]; exact h.1⟩

/-! ## Hook scripts -/

/-- C2: `execute_script` classifies the outcome of the hook from the results of
`stat`, `fork` and `waitpid`, for every name and environment: when `stat` fails
(no script) it returns 0 and changes nothing, so `fork` is not called; when
`fork` fails it returns -1; when `waitpid` returns the child, a normal exit with
code 0 gives 0 with no error logged, a normal exit with code `c != 0` gives -1
and the error logged carries `c`, a death by signal gives -1 and the error logged
carries the signal number, and any other status gives -1 logged as abnormal
termination. -/
theorem execute_script_classification (P : Consts) (E : Env) (name : String)
    (envp : List String) (w : World) :
    (E.stat (E.confbase ++ "/" ++ name) ≠ 0 →
      execute_script P E name envp w = (some 0, w)) ∧
    (E.stat (E.confbase ++ "/" ++ name) = 0 → E.fork < 0 →
      (execute_script P E name envp w).1 = some (-1) ∧
      (execute_script P E name envp w).2.trace =
        w.trace ++ [.fork, .logger .LOG_ERR (.syscall_failed "fork")]) ∧
    (E.stat (E.confbase ++ "/" ++ name) = 0 → 0 < E.fork →
      (E.waitpid (before_wait P name w).nwait).ret = E.fork →
      (P.WIFEXITED (E.waitpid (before_wait P name w).nwait).status = true →
        P.WEXITSTATUS (E.waitpid (before_wait P name w).nwait).status = 0 →
        (execute_script P E name envp w).1 = some 0 ∧
        (execute_script P E name envp w).2.trace =
          (before_wait P name w).trace ++ [.waitpid E.fork]) ∧
      (P.WIFEXITED (E.waitpid (before_wait P name w).nwait).status = true →
        P.WEXITSTATUS (E.waitpid (before_wait P name w).nwait).status ≠ 0 →
        (execute_script P E name envp w).1 = some (-1) ∧
        (execute_script P E name envp w).2.trace =
          (before_wait P name w).trace ++ [.waitpid E.fork,
            .logger .LOG_ERR (.exited_nonzero E.fork name
              (P.WEXITSTATUS (E.waitpid (before_wait P name w).nwait).status))]) ∧
      (P.WIFEXITED (E.waitpid (before_wait P name w).nwait).status = false →
        P.WIFSIGNALED (E.waitpid (before_wait P name w).nwait).status = true →
        (execute_script P E name envp w).1 = some (-1) ∧
        (execute_script P E name envp w).2.trace =
          (before_wait P name w).trace ++ [.waitpid E.fork,
            .logger .LOG_ERR (.killed_by_signal E.fork name
              (P.WTERMSIG (E.waitpid (before_wait P name w).nwait).status))]) ∧
      (P.WIFEXITED (E.waitpid (before_wait P name w).nwait).status = false →
        P.WIFSIGNALED (E.waitpid (before_wait P name w).nwait).status = false →
        (execute_script P E name envp w).1 = some (-1) ∧
        (execute_script P E name envp w).2.trace =
          (before_wait P name w).trace ++ [.waitpid E.fork,
            .logger .LOG_ERR (.terminated_abnormally E.fork name)])) := by
  refine ⟨?_, ?_, ?_⟩
  · intro h
    simp [execute_script, h]
  · intro h hf
    simp [execute_script, h, hf, logger, World.emit]
  · intro h hf
    have hf1 : ¬ E.fork < 0 := by omega
    have hf2 : E.fork ≠ 0 := by omega
    unfold before_wait
    simp only [execute_script, h, hf1, hf2, waitpid, ne_eq, not_true_eq_false, if_false,
      not_false_eq_true, if_true]
    generalize ifdebug P.DEBUG_STATUS (logger .LOG_INFO (.executing_script name))
      (w.emit .fork) = w2
    intro hw
    refine ⟨?_, ?_, ?_, ?_⟩ <;> intro h1 h2 <;>
      simp [hw, h1, h2, logger, World.emit]

/-- Instances of C2: no script, failing `fork`, exit code 0, exit code 7
(status 1792), death by signal 15, and a stopped child (status 127). -/
theorem execute_script_classification_witness :
    execute_script linux { env0 with stat := fun _ => -1 } "tinc-up" [] (world0 linux 0)
      = (some 0, world0 linux 0) ∧
    (execute_script linux { env0 with fork := -1 } "tinc-up" [] (world0 linux 0)).1
      = some (-1) ∧
    (execute_script linux (env_status 0) "tinc-up" [] (world0 linux 0)).1 = some 0 ∧
    ((execute_script linux (env_status 1792) "tinc-up" [] (world0 linux 0)).1 = some (-1) ∧
      (execute_script linux (env_status 1792) "tinc-up" [] (world0 linux 0)).2.trace =
        [.fork, .waitpid 500, .logger .LOG_ERR (.exited_nonzero 500 "tinc-up" 7)]) ∧
    ((execute_script linux (env_status 15) "tinc-up" [] (world0 linux 0)).1 = some (-1) ∧
      (execute_script linux (env_status 15) "tinc-up" [] (world0 linux 0)).2.trace =
        [.fork, .waitpid 500, .logger .LOG_ERR (.killed_by_signal 500 "tinc-up" 15)]) ∧
    ((execute_script linux (env_status 127) "tinc-up" [] (world0 linux 0)).1 = some (-1) ∧
      (execute_script linux (env_status 127) "tinc-up" [] (world0 linux 0)).2.trace =
        [.fork, .waitpid 500, .logger .LOG_ERR (.terminated_abnormally 500 "tinc-up")]) :=
  ⟨(execute_script_classification linux { env0 with stat := fun _ => -1 } "tinc-up" []
      (world0 linux 0)).1 (by decide),
   ((execute_script_classification linux { env0 with fork := -1 } "tinc-up" []
      (world0 linux 0)).2.1 rfl (by decide)).1,
   ((execute_script_classification linux (env_status 0) "tinc-up" []
      (world0 linux 0)).2.2 rfl (by decide) rfl).1 rfl rfl |>.1,
   (execute_script_classification linux (env_status 1792) "tinc-up" []
      (world0 linux 0)).2.2 rfl (by decide) rfl |>.2.1 rfl (by decide),
   (execute_script_classification linux (env_status 15) "tinc-up" []
      (world0 linux 0)).2.2 rfl (by decide) rfl |>.2.2.1 rfl rfl,
   (execute_script_classification linux (env_status 127) "tinc-up" []
      (world0 linux 0)).2.2 rfl (by decide) rfl |>.2.2.2 rfl rfl⟩

/-- C3 (as stated, refuted): with one interrupted `waitpid` before a child that
exits with code 7 (wait status 1792), `execute_script` returns 0 after a single
`waitpid` call, while the same termination without interruption returns -1: the
interruption itself became the result. -/
theorem execute_script_eintr_counterexample :
    (execute_script linux (env_interrupted 1 1792) "tinc-up" [] (world0 linux 0)).1
      = some 0 ∧
    (execute_script linux (env_interrupted 1 1792) "tinc-up" [] (world0 linux 0)).2.trace
      = [.fork, .waitpid 500] ∧
    (execute_script linux (env_interrupted 0 1792) "tinc-up" [] (world0 linux 0)).1
      = some (-1) := by
  decide

/-- C3 (amended): when the wait for the hook child is interrupted (`waitpid`
fails with `EINTR`), `execute_script` does not wait again: for every `k >= 1`
interruptions that would precede the termination status `s`, it calls `waitpid`
once, logs no error and returns 0, whatever `s` is. -/
theorem execute_script_eintr (P : Consts) (E : Env) (name : String) (envp : List String)
    (w : World) (k : Nat) (s : Int)
    (hstat : E.stat (E.confbase ++ "/" ++ name) = 0) (hfork : 0 < E.fork)
    (hwait : ∀ n, E.waitpid ((before_wait P name w).nwait + n)
      = waitpid_interrupted P k E.fork s n)
    (hk : 1 ≤ k) :
    (execute_script P E name envp w).1 = some 0 ∧
    (execute_script P E name envp w).2.nwait = (before_wait P name w).nwait + 1 ∧
    (execute_script P E name envp w).2.trace =
      (before_wait P name w).trace ++ [.waitpid E.fork] := by
  have hf1 : ¬ E.fork < 0 := by omega
  have hf2 : E.fork ≠ 0 := by omega
  have h0 := hwait 0
  have hk0 : 0 < k := hk
  simp only [waitpid_interrupted, Nat.add_zero, hk0, if_true] at h0
  revert h0
  unfold before_wait
  simp only [execute_script, hstat, hf1, hf2, waitpid, ne_eq, not_true_eq_false, if_false,
    not_false_eq_true, if_true]
  generalize ifdebug P.DEBUG_STATUS (logger .LOG_INFO (.executing_script name))
    (w.emit .fork) = w2
  intro h0
  have hne : ¬ (-1 : Int) = E.fork := by omega
  simp [h0, hne, World.emit]

/-- Instance of C3 (amended): two interruptions before exit code 7. -/
theorem execute_script_eintr_witness :
    env0.stat (env0.confbase ++ "/" ++ "tinc-up") = 0 ∧ 1 ≤ 2 ∧
    (execute_script linux (env_interrupted 2 1792) "tinc-up" [] (world0 linux 0)).1
      = some 0 ∧
    (execute_script linux (env_interrupted 2 1792) "tinc-up" [] (world0 linux 0)).2.nwait
      = 1 := by
  have hwait : ∀ n, (env_interrupted 2 1792).waitpid
      ((before_wait linux "tinc-up" (world0 linux 0)).nwait + n)
        = waitpid_interrupted linux 2 (env_interrupted 2 1792).fork 1792 n := by
    intro n
    show waitpid_interrupted linux 2 500 1792 (0 + n) = _
    rw [Nat.zero_add]
    rfl
  have h := execute_script_eintr linux (env_interrupted 2 1792) "tinc-up" []
    (world0 linux 0) 2 1792 rfl (by decide) hwait (by decide)
  exact ⟨rfl, by decide, h.1, h.2.1⟩

/-! ## Lemmas: what `setup_signals` leaves alone -/

theorem SignalFrame.refl (w : World) : SignalFrame w w :=
  ⟨w.g.sighandlers, w.disposition, w.trace, rfl⟩

theorem SignalFrame.trans {u v w : World} (h1 : SignalFrame u v) (h2 : SignalFrame v w) :
    SignalFrame u w := by
  obtain ⟨t1, D1, r1, rfl⟩ := h1
  obtain ⟨t2, D2, r2, rfl⟩ := h2
  exact ⟨t2, D2, r2, rfl⟩

theorem sigaction_frame (E : Env) (sig : Nat) (h : Handler) (w : World) :
    SignalFrame w (sigaction E sig h w).2 := by
  unfold sigaction
  split_ifs
  · exact ⟨w.g.sighandlers, _, w.trace, rfl⟩
  · exact SignalFrame.refl w

theorem setup_default_frame (E : Env) (n : Nat) (w : World) :
    SignalFrame w (setup_default E n w) := by
  induction n with
  | zero => exact SignalFrame.refl w
  | succ k ih =>
    unfold setup_default at ih ⊢
    rw [List.range_succ, List.foldl_append]
    simp only [List.foldl_cons, List.foldl_nil]
    exact ih.trans (sigaction_frame E _ _ _)

theorem setup_table_frame (E : Env) (tab : List (Nat × Handler)) (w : World) :
    SignalFrame w (setup_table E tab w) := by
  induction tab generalizing w with
  | nil => exact SignalFrame.refl w
  | cons e rest ih =>
    obtain ⟨sig, h⟩ := e
    unfold setup_table
    by_cases hs : sig = 0
    · simp only [hs, if_true]
      exact SignalFrame.refl w
    · simp only [hs, if_false]
      refine SignalFrame.trans ?_ (ih _)
      refine (sigaction_frame E sig h w).trans ?_
      split_ifs
      · exact ⟨_, _, _, rfl⟩
      · exact SignalFrame.refl _

theorem setup_signals_frame (P : Consts) (E : Env) (w : World) :
    SignalFrame w (setup_signals P E w) := by
  unfold setup_signals
  refine (setup_default_frame E P.NSIG w).trans ?_
  refine SignalFrame.trans ?_ (setup_table_frame E _ _)
  split_ifs
  · exact ⟨_, _, _, rfl⟩
  · exact SignalFrame.refl _

/-! ## The lock file and startup -/

/-- C4: whenever `check_pid` reports a non-zero pid, `write_pidfile` returns 1
after printing the message that a tincd is already running, and `write_pid` is
not called: the lock file holds after the call what it held before. -/
theorem write_pidfile_already_running (E : Env) (w : World) (h : check_pid w ≠ 0) :
    (write_pidfile E w).1 = 1 ∧
    (write_pidfile E w).2.pidfile = w.pidfile ∧
    (write_pidfile E w).2.nwrite = w.nwrite ∧
    (write_pidfile E w).2.trace =
      w.trace ++ [.stderr (.already_running E.netname (check_pid w))] := by
  simp [write_pidfile, h, fprintf_stderr, World.emit]

/-- Instance of C4: the lock file records pid 77. -/
theorem write_pidfile_already_running_witness :
    check_pid { world0 linux 0 with pidfile := some 77 } ≠ 0 ∧
    (write_pidfile env0 { world0 linux 0 with pidfile := some 77 }).1 = 1 ∧
    (write_pidfile env0 { world0 linux 0 with pidfile := some 77 }).2.pidfile = some 77 ∧
    (write_pidfile env0 { world0 linux 0 with pidfile := some 77 }).2.trace =
      [.stderr (.already_running none 77)] :=
  ⟨by decide,
   (write_pidfile_already_running env0 { world0 linux 0 with pidfile := some 77 }
      (by decide)).1,
   (write_pidfile_already_running env0 { world0 linux 0 with pidfile := some 77 }
      (by decide)).2.1,
   (write_pidfile_already_running env0 { world0 linux 0 with pidfile := some 77 }
      (by decide)).2.2.2⟩

/-- C7: when the lock file records a non-zero pid `p` and `kill(p, signal)`
fails with `ESRCH`, `kill_other(signal)` removes the lock file and returns 0;
a `write_pidfile` made right afterwards by a process with pid `q` finds no
recorded pid, and when its `write_pid` succeeds it returns 0 and leaves `q`
recorded. -/
theorem kill_other_stale_lock (P : Consts) (E : Env) (signal : Int) (w : World) (p q : Int)
    (hp : w.pidfile = some p) (hp0 : p ≠ 0)
    (hk : (E.kill p signal).1 ≠ 0) (he : (E.kill p signal).2 = P.ESRCH)
    (hw : E.write_pid_ok w.nwrite = true) :
    (kill_other P E signal w).1 = 0 ∧
    (kill_other P E signal w).2.pidfile = none ∧
    check_pid { (kill_other P E signal w).2 with self := q } = 0 ∧
    (write_pidfile E { (kill_other P E signal w).2 with self := q }).1 = 0 ∧
    (write_pidfile E { (kill_other P E signal w).2 with self := q }).2.pidfile = some q := by
  simp [kill_other, read_pid, check_pid, write_pidfile, write_pid, kill, remove_pid,
    fprintf_stderr, World.emit, hp, hp0, hk, he, hw]

/-- Instance of C7: the lock file records pid 77 and `kill` fails with `ESRCH`. -/
theorem kill_other_stale_lock_witness :
    ({ world0 linux 0 with pidfile := some 77 } : World).pidfile = some 77 ∧
    (77 : Int) ≠ 0 ∧
    (kill_other linux { env0 with kill := fun _ _ => (-1, 3) } 0
      { world0 linux 0 with pidfile := some 77 }).1 = 0 ∧
    (kill_other linux { env0 with kill := fun _ _ => (-1, 3) } 0
      { world0 linux 0 with pidfile := some 77 }).2.pidfile = none ∧
    (write_pidfile { env0 with kill := fun _ _ => (-1, 3) }
      { (kill_other linux { env0 with kill := fun _ _ => (-1, 3) } 0
          { world0 linux 0 with pidfile := some 77 }).2 with self := 4242 }).2.pidfile
      = some 4242 :=
  ⟨rfl, by decide,
   (kill_other_stale_lock linux { env0 with kill := fun _ _ => (-1, 3) } 0
      { world0 linux 0 with pidfile := some 77 } 77 4242 rfl (by decide) (by decide) rfl
      rfl).1,
   (kill_other_stale_lock linux { env0 with kill := fun _ _ => (-1, 3) } 0
      { world0 linux 0 with pidfile := some 77 } 77 4242 rfl (by decide) (by decide) rfl
      rfl).2.1,
   (kill_other_stale_lock linux { env0 with kill := fun _ _ => (-1, 3) } 0
      { world0 linux 0 with pidfile := some 77 } 77 4242 rfl (by decide) (by decide) rfl
      rfl).2.2.2.2⟩

/-- C6 (as stated, refuted): with no lock file, a pre-fork pid 4242 and a
failing `daemon()`, `detach()` returns -1 and the lock file, absent before the
call, records pid 4242 after it; the same holds when `daemon()` succeeds and
the second `write_pid` fails. -/
theorem detach_failure_counterexample :
    (world0 linux 0).pidfile = none ∧
    (detach linux { env0 with daemon_ret := -1 } (world0 linux 0)).1 = -1 ∧
    (detach linux { env0 with daemon_ret := -1 } (world0 linux 0)).2.pidfile = some 4242 ∧
    (detach linux { env0 with write_pid_ok := fun n => decide (n = 0) } (world0 linux 0)).1
      = -1 ∧
    (detach linux { env0 with write_pid_ok := fun n => decide (n = 0) }
      (world0 linux 0)).2.pidfile = some 4242 := by
  decide

/-- C6 (amended): when `detach()` returns -1 because an instance is already
running (`check_pid` is non-zero) or because the lock cannot be written (the
first `write_pid` fails), the lock file is as it was before the call. When
`daemon()` fails, or `daemon()` succeeds and the second `write_pid` fails,
`detach()` returns -1 and does not remove the lock file: the pre-fork pid that
this startup wrote remains recorded. -/
theorem detach_failure_lock (P : Consts) (E : Env) (w : World) :
    (check_pid w ≠ 0 →
      (detach P E w).1 = -1 ∧ (detach P E w).2.pidfile = w.pidfile ∧
      (detach P E w).2.nwrite = w.nwrite) ∧
    (check_pid w = 0 → E.write_pid_ok w.nwrite = false →
      (detach P E w).1 = -1 ∧ (detach P E w).2.pidfile = w.pidfile) ∧
    (check_pid w = 0 → E.write_pid_ok w.nwrite = true → w.g.do_detach ≠ 0 →
      E.daemon_ret < 0 →
      (detach P E w).1 = -1 ∧ (detach P E w).2.pidfile = some w.self) ∧
    (check_pid w = 0 → E.write_pid_ok w.nwrite = true → w.g.do_detach ≠ 0 →
      ¬ E.daemon_ret < 0 → E.write_pid_ok (w.nwrite + 1) = false →
      (detach P E w).1 = -1 ∧ (detach P E w).2.pidfile = some w.self ∧
      (detach P E w).2.self = E.daemon_pid) := by
  obtain ⟨tab, D, tr, h0⟩ := setup_signals_frame P E w
  refine ⟨?_, ?_, ?_, ?_⟩
  · intro h
    simp only [check_pid, read_pid] at h
    simp [detach, h0, write_pidfile, check_pid, read_pid, h, fprintf_stderr, World.emit]
  · intro h hw
    simp only [check_pid, read_pid] at h
    simp [detach, h0, write_pidfile, check_pid, read_pid, h, write_pid, hw, World.emit]
  · intro h hw hd hdm
    simp only [check_pid, read_pid] at h
    simp [detach, h0, write_pidfile, check_pid, read_pid, h, write_pid, hw, World.emit,
      closelogger, hd, daemon, hdm, fprintf_stderr]
  · intro h hw hd hdm hw2
    simp only [check_pid, read_pid] at h
    simp [detach, h0, write_pidfile, check_pid, read_pid, h, write_pid, hw, World.emit,
      closelogger, hd, daemon, hdm, hw2]

/-- Instances of C6 (amended), one for each way `detach` fails. -/
theorem detach_failure_lock_witness :
    ((detach linux env0 { world0 linux 0 with pidfile := some 77 }).1 = -1 ∧
      (detach linux env0 { world0 linux 0 with pidfile := some 77 }).2.pidfile = some 77) ∧
    ((detach linux { env0 with write_pid_ok := fun _ => false } (world0 linux 0)).1 = -1 ∧
      (detach linux { env0 with write_pid_ok := fun _ => false } (world0 linux 0)).2.pidfile
        = none) ∧
    ((detach linux { env0 with daemon_ret := -1 } (world0 linux 0)).1 = -1 ∧
      (detach linux { env0 with daemon_ret := -1 } (world0 linux 0)).2.pidfile
        = some 4242) ∧
    ((detach linux { env0 with write_pid_ok := fun n => decide (n = 0) }
        (world0 linux 0)).1 = -1 ∧
      (detach linux { env0 with write_pid_ok := fun n => decide (n = 0) }
        (world0 linux 0)).2.pidfile = some 4242) :=
  ⟨⟨((detach_failure_lock linux env0 { world0 linux 0 with pidfile := some 77 }).1
        (by decide)).1,
    ((detach_failure_lock linux env0 { world0 linux 0 with pidfile := some 77 }).1
        (by decide)).2.1⟩,
   (detach_failure_lock linux { env0 with write_pid_ok := fun _ => false }
      (world0 linux 0)).2.1 rfl rfl,
   (detach_failure_lock linux { env0 with daemon_ret := -1 }
      (world0 linux 0)).2.2.1 rfl rfl (by decide) (by decide),
   ⟨((detach_failure_lock linux { env0 with write_pid_ok := fun n => decide (n = 0) }
      (world0 linux 0)).2.2.2 rfl rfl (by decide) (by decide) rfl).1,
    ((detach_failure_lock linux { env0 with write_pid_ok := fun n => decide (n = 0) }
      (world0 linux 0)).2.2.2 rfl rfl (by decide) (by decide) rfl).2.1⟩⟩

/-- C8: whenever `detach()` returns 0 with `do_detach != 0`, `daemon()` was
called and succeeded, and the last call that writes the lock file is the
`write_pid` made after it, by the process that `daemon()` left running: the
lock file records the post-detach pid, which is the pid of the process from
then on, and not the pre-fork pid when the two differ. -/
theorem detach_records_daemon_pid (P : Consts) (E : Env) (w : World)
    (hd : w.g.do_detach ≠ 0) (hret : (detach P E w).1 = 0) :
    (detach P E w).2.pidfile = some E.daemon_pid ∧
    (detach P E w).2.self = E.daemon_pid ∧
    (∃ pre, (detach P E w).2.trace =
      pre ++ [.write_pid w.self true, .closelogger, .daemon,
        .write_pid E.daemon_pid true,
        .openlogger (logmode E w), .logger .LOG_NOTICE (.starting w.g.debug_level)]) ∧
    (E.daemon_pid ≠ w.self → (detach P E w).2.pidfile ≠ some w.self) := by
  obtain ⟨tab, D, tr, h0⟩ := setup_signals_frame P E w
  by_cases h : w.pidfile.getD 0 = 0
  swap
  · exfalso; revert hret
    simp [detach, h0, write_pidfile, check_pid, read_pid, h, fprintf_stderr, World.emit]
  by_cases hw : E.write_pid_ok w.nwrite = true
  swap
  · exfalso; revert hret
    simp [detach, h0, write_pidfile, check_pid, read_pid, h, write_pid, hw, World.emit]
  by_cases hdm : E.daemon_ret < 0
  · exfalso; revert hret
    simp [detach, h0, write_pidfile, check_pid, read_pid, h, write_pid, hw, World.emit,
      closelogger, hd, daemon, hdm, fprintf_stderr]
  by_cases hw2 : E.write_pid_ok (w.nwrite + 1) = true
  swap
  · exfalso; revert hret
    simp [detach, h0, write_pidfile, check_pid, read_pid, h, write_pid, hw, World.emit,
      closelogger, hd, daemon, hdm, hw2]
  refine ⟨?_, ?_, ⟨tr, ?_⟩, ?_⟩ <;>
    simp [detach, h0, write_pidfile, check_pid, read_pid, h, write_pid, hw, World.emit,
      closelogger, hd, daemon, hdm, hw2, detach_finish, openlogger, logger, logmode]

/-- Instance of C8: pid 4242 before `daemon()`, pid 4243 after it. -/
theorem detach_records_daemon_pid_witness :
    (world0 linux 0).g.do_detach ≠ 0 ∧ (detach linux env0 (world0 linux 0)).1 = 0 ∧
    (detach linux env0 (world0 linux 0)).2.pidfile = some 4243 ∧
    (detach linux env0 (world0 linux 0)).2.self = 4243 ∧
    (detach linux env0 (world0 linux 0)).2.pidfile ≠ some 4242 :=
  ⟨by decide, by decide,
   (detach_records_daemon_pid linux env0 (world0 linux 0) (by decide) (by decide)).1,
   (detach_records_daemon_pid linux env0 (world0 linux 0) (by decide) (by decide)).2.1,
   (detach_records_daemon_pid linux env0 (world0 linux 0) (by decide) (by decide)).2.2.2
     (by decide)⟩

/-! ## Fatal signals -/

end Tincd
